import Mathlib

/-! # Yandex Cloud DNS client (`internal/yandex/client/client.go`)

A shallow embedding of the client package: the three operations
`ListZones`, `ListRecordSets` and `UpsertRecordSets`, and the constructor
`NewYandexClient`.

Conventions of the embedding.

* A Go slice is a `List`; the nil slice and the empty slice are both `[]`
  (they agree on `len`, `range`, `append` and on the protobuf encoding).
* A Go `error` is observed through the text of its `Error()` method; the
  nil error of a `(value, error)` result is `none`.
* `int64` fields are only copied, never computed with, and are `Int`.
* The Yandex Cloud SDK, the file system and the key parser are external
  collaborators.  They are arbitrary state-passing functions over a state
  `σ`; each call made by the client is appended to a trace kept beside that
  state.
* The pagination loop of `ListZones` has no bound in the source, so it is
  embedded with a fuel counter: `none` means that the fuel ran out.
-/

namespace client

/-! ## Errors and `fmt.Errorf` -/

/-- A Go `error` value as this package observes it: the text returned by its
`Error()` method. -/
structure GoError where
  Error : String
  deriving DecidableEq, Repr

namespace fmt

/-- The formatting done by `fmt.Sprintf` for the one verb that occurs in this
package: each `%v` is replaced by the text of the next operand, or by
`%!v(MISSING)` when no operand is left, and every other character is copied.
Every format of the package has as many `%v` as operands. -/
def Sprintf : List Char → List String → List Char
  | [], _ => []
  | '%' :: 'v' :: rest, a :: args => a.data ++ Sprintf rest args
  | '%' :: 'v' :: rest, [] => "%!v(MISSING)".data ++ Sprintf rest []
  | c :: rest, args => c :: Sprintf rest args

/-- The Go function `fmt.Errorf(format, operands...)` for `error` operands
printed with `%v`: an error whose text is the formatted string. -/
def Errorf (format : String) (a : List GoError) : GoError :=
  { Error := String.mk (Sprintf format.data (a.map (fun e => e.Error))) }

end fmt

/-! ## Wire types of `github.com/yandex-cloud/go-genproto/.../dns/v1` -/

namespace dns

/-- The message `dns.PrivateVisibility`. -/
structure PrivateVisibility where
  NetworkIds : List String
  deriving DecidableEq, Repr

/-- The message `dns.PublicVisibility` (no fields). -/
structure PublicVisibility where
  deriving DecidableEq, Repr

/-- The message `dns.DnsZone`, with the fields the client can observe; the two
visibility sub-messages are pointers, `none` is the nil pointer. -/
structure DnsZone where
  Id : String
  FolderId : String
  Name : String
  Zone : String
  PrivateVisibility : Option PrivateVisibility
  PublicVisibility : Option PublicVisibility
  deriving DecidableEq, Repr

/-- The message `dns.RecordSet`. -/
structure RecordSet where
  Name : String
  Type_ : String
  Ttl : Int
  Data : List String
  deriving DecidableEq, Repr

/-- The message `dns.ListDnsZonesRequest`. -/
structure ListDnsZonesRequest where
  FolderId : String
  PageSize : Int
  PageToken : String
  Filter : String
  deriving DecidableEq, Repr

/-- The message `dns.ListDnsZonesResponse`. -/
structure ListDnsZonesResponse where
  DnsZones : List DnsZone
  NextPageToken : String
  deriving DecidableEq, Repr

/-- The message `dns.ListDnsZoneRecordSetsRequest`. -/
structure ListDnsZoneRecordSetsRequest where
  DnsZoneId : String
  PageSize : Int
  PageToken : String
  Filter : String
  deriving DecidableEq, Repr

/-- The message `dns.ListDnsZoneRecordSetsResponse`. -/
structure ListDnsZoneRecordSetsResponse where
  RecordSets : List RecordSet
  NextPageToken : String
  deriving DecidableEq, Repr

/-- The message `dns.UpsertRecordSetsRequest`. -/
structure UpsertRecordSetsRequest where
  DnsZoneId : String
  Deletions : List RecordSet
  Replacements : List RecordSet
  Merges : List RecordSet
  deriving DecidableEq, Repr

end dns

/-- The long-running operation handle returned by the upsert call; the client
discards it. -/
structure Operation where
  Id : String
  deriving DecidableEq, Repr

/-! ## Types of the package -/

/-- The Go struct `RecordSet`. -/
structure RecordSet where
  Name : String
  Type_ : String
  TTL : Int
  Data : List String
  deriving DecidableEq, Repr

/-- The zero value of `RecordSet`, which `make` fills a fresh slice with. -/
instance : Inhabited RecordSet := ⟨{ Name := "", Type_ := "", TTL := 0, Data := [] }⟩

/-- The Go struct `UpsertRequest`. -/
structure UpsertRequest where
  DnsZoneID : String
  Deletions : List RecordSet
  Replacements : List RecordSet
  Merges : List RecordSet
  deriving DecidableEq, Repr

/-- The Go struct `Zone`. -/
structure Zone where
  ID : String
  Name : String
  IsPrivate : Bool
  deriving DecidableEq, Repr

/-! ## External collaborators -/

/-- The contents of a file, a Go `[]byte`. -/
abbrev Bytes := List (Fin 256)

/-- One call made to an external collaborator, with what it was given and, for
the three DNS calls, what it answered. -/
inductive Call where
  | ReadFile (name : String)
  | UnmarshalJSON (data : Bytes)
  | ServiceAccountKey
  | Build (endpoint : String)
  | List (req : dns.ListDnsZonesRequest) (res : Except GoError dns.ListDnsZonesResponse)
  | ListRecordSets (req : dns.ListDnsZoneRecordSetsRequest)
      (res : Except GoError dns.ListDnsZoneRecordSetsResponse)
  | UpsertRecordSets (req : dns.UpsertRecordSetsRequest) (res : Except GoError Operation)

/-- The world outside the client: the state of the external collaborators and
the trace of the calls made to them so far, oldest first. -/
structure World (σ : Type) where
  state : σ
  trace : List Call

/-- The handle `*ycsdk.SDK`, as the three calls of its `DNS().DnsZone()` client
that this package uses. Each is an arbitrary function of the request and of
the provider state. -/
structure SDK (σ : Type) where
  DnsZone_List : dns.ListDnsZonesRequest → σ → Except GoError dns.ListDnsZonesResponse × σ
  DnsZone_ListRecordSets :
    dns.ListDnsZoneRecordSetsRequest → σ → Except GoError dns.ListDnsZoneRecordSetsResponse × σ
  DnsZone_UpsertRecordSets : dns.UpsertRecordSetsRequest → σ → Except GoError Operation × σ

/-- The Go struct `YandexClient`. -/
structure YandexClient (σ : Type) where
  sdk : SDK σ
  folderID : String

/-- The Go struct `ycsdk.Config`, with the two fields the constructor sets; the
zero value of `Endpoint` is the empty string. -/
structure Config (Creds : Type) where
  Credentials : Creds
  Endpoint : String

/-- The functions the constructor calls outside the package: `os.ReadFile`,
`(*iamkey.Key).UnmarshalJSON`, `ycsdk.ServiceAccountKey` and `ycsdk.Build`. -/
structure Externals (σ Key Creds : Type) where
  ReadFile : String → σ → Except GoError Bytes × σ
  UnmarshalJSON : Bytes → σ → Except GoError Key × σ
  ServiceAccountKey : Key → σ → Except GoError Creds × σ
  Build : Config Creds → σ → Except GoError (SDK σ) × σ

/-- The call `c.sdk.DNS().DnsZone().List(ctx, req)`. -/
def SDK.List {σ : Type} (sdk : SDK σ) (req : dns.ListDnsZonesRequest) (w : World σ) :
    Except GoError dns.ListDnsZonesResponse × World σ :=
  let r := sdk.DnsZone_List req w.state
  (r.1, { state := r.2, trace := w.trace ++ [Call.List req r.1] })

/-- The call `c.sdk.DNS().DnsZone().ListRecordSets(ctx, req)`. -/
def SDK.ListRecordSets {σ : Type} (sdk : SDK σ) (req : dns.ListDnsZoneRecordSetsRequest)
    (w : World σ) : Except GoError dns.ListDnsZoneRecordSetsResponse × World σ :=
  let r := sdk.DnsZone_ListRecordSets req w.state
  (r.1, { state := r.2, trace := w.trace ++ [Call.ListRecordSets req r.1] })

/-- The call `c.sdk.DNS().DnsZone().UpsertRecordSets(ctx, upsertReq)`. -/
def SDK.UpsertRecordSets {σ : Type} (sdk : SDK σ) (req : dns.UpsertRecordSetsRequest)
    (w : World σ) : Except GoError Operation × World σ :=
  let r := sdk.DnsZone_UpsertRecordSets req w.state
  (r.1, { state := r.2, trace := w.trace ++ [Call.UpsertRecordSets req r.1] })

/-- The call `os.ReadFile(name)`. -/
def Externals.osReadFile {σ Key Creds : Type} (ext : Externals σ Key Creds) (name : String)
    (w : World σ) : Except GoError Bytes × World σ :=
  let r := ext.ReadFile name w.state
  (r.1, { state := r.2, trace := w.trace ++ [Call.ReadFile name] })

/-- The call `key.UnmarshalJSON(saBytes)` on a fresh key. -/
def Externals.keyUnmarshalJSON {σ Key Creds : Type} (ext : Externals σ Key Creds)
    (data : Bytes) (w : World σ) : Except GoError Key × World σ :=
  let r := ext.UnmarshalJSON data w.state
  (r.1, { state := r.2, trace := w.trace ++ [Call.UnmarshalJSON data] })

/-- The call `ycsdk.ServiceAccountKey(key)`. -/
def Externals.ycsdkServiceAccountKey {σ Key Creds : Type} (ext : Externals σ Key Creds)
    (key : Key) (w : World σ) : Except GoError Creds × World σ :=
  let r := ext.ServiceAccountKey key w.state
  (r.1, { state := r.2, trace := w.trace ++ [Call.ServiceAccountKey] })

/-- The call `ycsdk.Build(context.Background(), config)`. -/
def Externals.ycsdkBuild {σ Key Creds : Type} (ext : Externals σ Key Creds)
    (config : Config Creds) (w : World σ) : Except GoError (SDK σ) × World σ :=
  let r := ext.Build config w.state
  (r.1, { state := r.2, trace := w.trace ++ [Call.Build config.Endpoint] })

/-! ## The package's functions -/

/-- The Go function `NewYandexClient`. The result pairs the Go result
`(*YandexClient, error)` with the world after the call. -/
def NewYandexClient {σ Key Creds : Type} (ext : Externals σ Key Creds)
    (folderID : String) (authKeyFile : String) (endpoint : String) (w : World σ) :
    (Option (YandexClient σ) × Option GoError) × World σ :=
  if authKeyFile = "" then
    ((none, some (fmt.Errorf "auth-key-file must be set" [])), w)
  else
    match ext.osReadFile authKeyFile w with
    | (.error err, w) =>
      ((none, some (fmt.Errorf "failed to read service account key file: %v" [err])), w)
    | (.ok saBytes, w) =>
      match ext.keyUnmarshalJSON saBytes w with
      | (.error err, w) =>
        ((none, some (fmt.Errorf "failed to parse service account key: %v" [err])), w)
      | (.ok key, w) =>
        match ext.ycsdkServiceAccountKey key w with
        | (.error err, w) =>
          ((none, some (fmt.Errorf "failed to create credentials: %v" [err])), w)
        | (.ok credentials, w) =>
          let config : Config Creds := { Credentials := credentials, Endpoint := "" }
          let config := if endpoint ≠ "" then { config with Endpoint := endpoint } else config
          match ext.ycsdkBuild config w with
          | (.error err, w) =>
            ((none, some (fmt.Errorf "failed to create Yandex Cloud SDK: %v" [err])), w)
          | (.ok sdk, w) =>
            ((some { sdk := sdk, folderID := folderID }, none), w)

/-- The inner loop of `ListZones` (lines 115-121): every zone of the response is
mapped and appended to the accumulator, in response order. -/
def ListZones.appendPage (zones : List Zone) (resp : dns.ListDnsZonesResponse) : List Zone :=
  resp.DnsZones.foldl
    (fun zones zone =>
      zones ++ [{ ID := zone.Id, Name := zone.Zone, IsPrivate := zone.PrivateVisibility.isSome }])
    zones

/-- The outer loop of `ListZones` (lines 104-127), from the loop state
`(zones, pageToken)`; `fuel` bounds the number of iterations. -/
def ListZones.loop {σ : Type} (c : YandexClient σ) :
    Nat → List Zone → String → World σ → Option ((List Zone × Option GoError) × World σ)
  | 0, _, _, _ => none
  | fuel + 1, zones, pageToken, w =>
    let req : dns.ListDnsZonesRequest :=
      { FolderId := c.folderID, PageSize := 0, PageToken := pageToken, Filter := "" }
    match c.sdk.List req w with
    | (.error err, w) => some (([], some (fmt.Errorf "failed to list zones: %v" [err])), w)
    | (.ok resp, w) =>
      let zones := ListZones.appendPage zones resp
      if resp.NextPageToken = "" then
        some ((zones, none), w)
      else
        ListZones.loop c fuel zones resp.NextPageToken w

/-- The Go method `(*YandexClient).ListZones`, run for at most `fuel` pages. -/
def ListZones {σ : Type} (fuel : Nat) (c : YandexClient σ) (w : World σ) :
    Option ((List Zone × Option GoError) × World σ) :=
  ListZones.loop c fuel [] "" w

/-- The slice `recordSets` built by `ListRecordSets` (lines 142-150): a slice of
`len(resp.RecordSets)` zero values, whose `i`-th cell is then overwritten with
the mapping of the `i`-th record set of the response. -/
def ListRecordSets.recordSets (resp : dns.ListDnsZoneRecordSetsResponse) : List RecordSet :=
  resp.RecordSets.enum.foldl
    (fun recordSets ir =>
      recordSets.set ir.1
        { Name := ir.2.Name, Type_ := ir.2.Type_, TTL := ir.2.Ttl, Data := ir.2.Data })
    (List.replicate resp.RecordSets.length default)

/-- The Go method `(*YandexClient).ListRecordSets`. -/
def ListRecordSets {σ : Type} (c : YandexClient σ) (zoneID : String) (w : World σ) :
    (List RecordSet × Option GoError) × World σ :=
  let req : dns.ListDnsZoneRecordSetsRequest :=
    { DnsZoneId := zoneID, PageSize := 0, PageToken := "", Filter := "" }
  match c.sdk.ListRecordSets req w with
  | (.error err, w) => (([], some (fmt.Errorf "failed to list record sets: %v" [err])), w)
  | (.ok resp, w) => ((ListRecordSets.recordSets resp, none), w)

/-- The request `upsertReq` built by `UpsertRecordSets` (lines 156-192): the three
buckets are mapped by three separate loops, each appending to its own slice. -/
def UpsertRecordSets.upsertReq (req : UpsertRequest) : dns.UpsertRecordSetsRequest :=
  let deletions : List dns.RecordSet :=
    req.Deletions.foldl
      (fun deletions d =>
        deletions ++ [{ Name := d.Name, Type_ := d.Type_, Ttl := d.TTL, Data := d.Data }]) []
  let replacements : List dns.RecordSet :=
    req.Replacements.foldl
      (fun replacements r =>
        replacements ++ [{ Name := r.Name, Type_ := r.Type_, Ttl := r.TTL, Data := r.Data }]) []
  let merges : List dns.RecordSet :=
    req.Merges.foldl
      (fun merges m =>
        merges ++ [{ Name := m.Name, Type_ := m.Type_, Ttl := m.TTL, Data := m.Data }]) []
  { DnsZoneId := req.DnsZoneID
    Deletions := deletions
    Replacements := replacements
    Merges := merges }

/-- The Go method `(*YandexClient).UpsertRecordSets`; the result is the Go
`error`, paired with the world after the call. -/
def UpsertRecordSets {σ : Type} (c : YandexClient σ) (req : UpsertRequest) (w : World σ) :
    Option GoError × World σ :=
  match c.sdk.UpsertRecordSets (UpsertRecordSets.upsertReq req) w with
  | (.error err, w) => (some (fmt.Errorf "failed to upsert record sets: %v" [err]), w)
  | (.ok _, w) => (none, w)

/-! ## Vocabulary of the statements -/

/-- The request that asks for the page of folder `folderID` at cursor
`pageToken`. -/
def pageRequest (folderID : String) (pageToken : String) : dns.ListDnsZonesRequest :=
  { FolderId := folderID, PageSize := 0, PageToken := pageToken, Filter := "" }

/-- The provider, in state `s` and asked for folder `folderID` from cursor
`pageToken` on, answers with exactly the successful pages `pages`: every page
but the last carries a non-empty next-cursor, at which the next page is asked
for, and the last page carries the empty next-cursor. -/
def ServesPages {σ : Type} (sdk : SDK σ) (folderID : String) :
    σ → String → List dns.ListDnsZonesResponse → Prop
  | _, _, [] => False
  | s, pageToken, [p] =>
    (sdk.DnsZone_List (pageRequest folderID pageToken) s).1 = .ok p ∧ p.NextPageToken = ""
  | s, pageToken, p :: q :: rest =>
    (sdk.DnsZone_List (pageRequest folderID pageToken) s).1 = .ok p ∧ p.NextPageToken ≠ "" ∧
      ServesPages sdk folderID (sdk.DnsZone_List (pageRequest folderID pageToken) s).2
        p.NextPageToken (q :: rest)

/-- The provider, in state `s` and asked for folder `folderID` from cursor
`pageToken` on, answers with the successful pages `pages`, each with a
non-empty next-cursor, and then fails the next fetch with `e`. -/
def FailsAfterPages {σ : Type} (sdk : SDK σ) (folderID : String) :
    σ → String → List dns.ListDnsZonesResponse → GoError → Prop
  | s, pageToken, [], e =>
    (sdk.DnsZone_List (pageRequest folderID pageToken) s).1 = .error e
  | s, pageToken, p :: rest, e =>
    (sdk.DnsZone_List (pageRequest folderID pageToken) s).1 = .ok p ∧ p.NextPageToken ≠ "" ∧
      FailsAfterPages sdk folderID (sdk.DnsZone_List (pageRequest folderID pageToken) s).2
        p.NextPageToken rest e

/-- The error a recorded call returned, if it is a DNS call that failed. -/
def Call.err : Call → Option GoError
  | .List _ (.error e) => some e
  | .ListRecordSets _ (.error e) => some e
  | .UpsertRecordSets _ (.error e) => some e
  | _ => none

/-- A zone-listing exchange: the request sent and the answer received. -/
abbrev Exchange := dns.ListDnsZonesRequest × Except GoError dns.ListDnsZonesResponse

/-- The trace entry of a zone-listing exchange. -/
def Exchange.toCall (x : Exchange) : Call :=
  Call.List x.1 x.2

/-- The exchanges form a cursor walk over folder `folderID` from `pageToken`:
the first request carries `pageToken`; every answer but the last is a success
with a non-empty next-cursor, which the following request carries; the last
answer is a failure or carries the empty next-cursor; every request is for
`folderID`. -/
def CursorWalk (folderID : String) : String → List Exchange → Prop
  | _, [] => False
  | pageToken, [x] =>
    x.1 = pageRequest folderID pageToken ∧
      match x.2 with
      | .error _ => True
      | .ok resp => resp.NextPageToken = ""
  | pageToken, x :: y :: rest =>
    x.1 = pageRequest folderID pageToken ∧
      match x.2 with
      | .error _ => False
      | .ok resp => resp.NextPageToken ≠ "" ∧ CursorWalk folderID resp.NextPageToken (y :: rest)

/-- The exchanges are what the provider really answered: sent one after the
other from state `s`, each request gets the recorded answer, and the provider
ends in state `s'`. -/
def Answered {σ : Type} (sdk : SDK σ) : σ → List Exchange → σ → Prop
  | s, [], s' => s' = s
  | s, x :: rest, s' =>
    (sdk.DnsZone_List x.1 s).1 = x.2 ∧ Answered sdk (sdk.DnsZone_List x.1 s).2 rest s'

/-- The cursor chain of the provider for folder `folderID`, from cursor
`pageToken` in state `s`, has exactly `n` pages: its `n`-th fetch is the first
one to fail or to answer with the empty next-cursor. -/
def ChainEndsAt {σ : Type} (sdk : SDK σ) (folderID : String) : Nat → σ → String → Prop
  | 0, _, _ => False
  | n + 1, s, pageToken =>
    match sdk.DnsZone_List (pageRequest folderID pageToken) s with
    | (.error _, _) => n = 0
    | (.ok resp, s) =>
      if resp.NextPageToken = "" then n = 0 else ChainEndsAt sdk folderID n s resp.NextPageToken

/-! ## A provider for the examples -/

/-- The first page of folder `f1`: a private zone and a public zone, and the
next-cursor `t1`. -/
def examplePage1 : dns.ListDnsZonesResponse :=
  { DnsZones :=
      [{ Id := "z1", FolderId := "f1", Name := "internal", Zone := "example.com.",
         PrivateVisibility := some { NetworkIds := ["net1"] }, PublicVisibility := none },
       { Id := "z2", FolderId := "f1", Name := "external", Zone := "example.com.",
         PrivateVisibility := none, PublicVisibility := some {} }]
    NextPageToken := "t1" }

/-- The second and last page of folder `f1`: one zone with no visibility set. -/
def examplePage2 : dns.ListDnsZonesResponse :=
  { DnsZones :=
      [{ Id := "z3", FolderId := "f1", Name := "other", Zone := "example.org.",
         PrivateVisibility := none, PublicVisibility := none }]
    NextPageToken := "" }

/-- The record set `www A 300 1.2.3.4, 1.2.3.3` on the wire. -/
def exampleWww : dns.RecordSet :=
  { Name := "www", Type_ := "A", Ttl := 300, Data := ["1.2.3.4", "1.2.3.3"] }

/-- A provider whose state counts the calls it served. Folder `f1` has the two
pages `examplePage1` and `examplePage2`; folder `empty` has one page without
zones; every other folder serves `examplePage1` and then fails. Zone `z1` has
two record sets and accepts upserts; every other zone is unknown. -/
def exampleSDK : SDK Nat where
  DnsZone_List req n :=
    if req.FolderId = "f1" then
      if req.PageToken = "" then (.ok examplePage1, n + 1)
      else if req.PageToken = "t1" then (.ok examplePage2, n + 1)
      else (.error { Error := "invalid page token" }, n + 1)
    else if req.FolderId = "empty" then (.ok { DnsZones := [], NextPageToken := "" }, n + 1)
    else if req.PageToken = "" then (.ok examplePage1, n + 1)
    else (.error { Error := "unavailable" }, n + 1)
  DnsZone_ListRecordSets req n :=
    if req.DnsZoneId = "z1" then
      (.ok { RecordSets :=
               [exampleWww, { Name := "txt", Type_ := "TXT", Ttl := 60, Data := ["b", "a", "b"] }]
             NextPageToken := "" }, n + 1)
    else (.error { Error := "zone not found" }, n + 1)
  DnsZone_UpsertRecordSets req n :=
    if req.DnsZoneId = "z1" then (.ok { Id := "op1" }, n + 1)
    else (.error { Error := "zone not found" }, n + 1)

/-- A client of `exampleSDK` bound to folder `folderID`. -/
def exampleClient (folderID : String) : YandexClient Nat :=
  { sdk := exampleSDK, folderID := folderID }

/-- The world before any call. -/
def exampleWorld : World Nat :=
  { state := 0, trace := [] }

/-- Collaborators of the constructor that accept every key file and build
`exampleSDK`. -/
def exampleExternals : Externals Nat Bytes Bytes where
  ReadFile _ n := (.ok [123, 125], n + 1)
  UnmarshalJSON data n := (.ok data, n + 1)
  ServiceAccountKey key n := (.ok key, n + 1)
  Build _ n := (.ok exampleSDK, n + 1)

/-! ## Auxiliary facts about the embedding -/

theorem Errorf_listZones (e : GoError) :
    fmt.Errorf "failed to list zones: %v" [e] = { Error := "failed to list zones: " ++ e.Error } := by
  simp [fmt.Errorf, fmt.Sprintf]
  rfl

theorem Errorf_listRecordSets (e : GoError) :
    fmt.Errorf "failed to list record sets: %v" [e]
      = { Error := "failed to list record sets: " ++ e.Error } := by
  simp [fmt.Errorf, fmt.Sprintf]
  rfl

theorem Errorf_upsertRecordSets (e : GoError) :
    fmt.Errorf "failed to upsert record sets: %v" [e]
      = { Error := "failed to upsert record sets: " ++ e.Error } := by
  simp [fmt.Errorf, fmt.Sprintf]
  rfl

theorem foldl_append_singleton {α β : Type} (f : α → β) (l : List α) (acc : List β) :
    l.foldl (fun acc a => acc ++ [f a]) acc = acc ++ l.map f := by
  induction l generalizing acc with
  | nil => simp
  | cons a l ih => simp [ih]

theorem appendPage_eq (zones : List Zone) (resp : dns.ListDnsZonesResponse) :
    ListZones.appendPage zones resp
      = zones ++ resp.DnsZones.map
          (fun zone => { ID := zone.Id, Name := zone.Zone,
                         IsPrivate := zone.PrivateVisibility.isSome }) := by
  unfold ListZones.appendPage
  exact foldl_append_singleton _ _ _

theorem foldl_set_enumFrom {α β : Type} (f : α → β) (d : β) (l : List α) (done : List β) :
    (l.enumFrom done.length).foldl (fun acc ir => acc.set ir.1 (f ir.2))
        (done ++ List.replicate l.length d)
      = done ++ l.map f := by
  induction l generalizing done with
  | nil => simp
  | cons a l ih =>
    have h := ih (done ++ [f a])
    simp only [List.length_append, List.length_singleton, List.append_assoc,
      List.singleton_append] at h
    simp only [List.enumFrom_cons, List.foldl_cons, List.length_cons, List.replicate_succ,
      List.map_cons]
    rw [← h]
    congr 1
    simp

theorem recordSets_eq (resp : dns.ListDnsZoneRecordSetsResponse) :
    ListRecordSets.recordSets resp
      = resp.RecordSets.map
          (fun r => { Name := r.Name, Type_ := r.Type_, TTL := r.Ttl, Data := r.Data }) := by
  unfold ListRecordSets.recordSets
  have h := foldl_set_enumFrom
    (fun (r : dns.RecordSet) =>
      ({ Name := r.Name, Type_ := r.Type_, TTL := r.Ttl, Data := r.Data } : RecordSet))
    default resp.RecordSets []
  simpa [List.enum] using h

theorem upsertReq_eq (req : UpsertRequest) :
    UpsertRecordSets.upsertReq req
      = { DnsZoneId := req.DnsZoneID
          Deletions := req.Deletions.map
            (fun d => { Name := d.Name, Type_ := d.Type_, Ttl := d.TTL, Data := d.Data })
          Replacements := req.Replacements.map
            (fun d => { Name := d.Name, Type_ := d.Type_, Ttl := d.TTL, Data := d.Data })
          Merges := req.Merges.map
            (fun d => { Name := d.Name, Type_ := d.Type_, Ttl := d.TTL, Data := d.Data }) } := by
  unfold UpsertRecordSets.upsertReq
  simp [foldl_append_singleton]

/-- One iteration of the pagination loop, with the page mapping and the error
text written out. -/
theorem loop_succ {σ : Type} (c : YandexClient σ) (fuel : Nat) (zones : List Zone)
    (pageToken : String) (w : World σ) :
    ListZones.loop c (fuel + 1) zones pageToken w =
      match (c.sdk.DnsZone_List (pageRequest c.folderID pageToken) w.state).1 with
      | .error err =>
        some (([], some { Error := "failed to list zones: " ++ err.Error }),
          { state := (c.sdk.DnsZone_List (pageRequest c.folderID pageToken) w.state).2
            trace := w.trace ++ [Call.List (pageRequest c.folderID pageToken) (.error err)] })
      | .ok resp =>
        if resp.NextPageToken = "" then
          some ((zones ++ resp.DnsZones.map
              (fun zone => { ID := zone.Id, Name := zone.Zone,
                             IsPrivate := zone.PrivateVisibility.isSome }), none),
            { state := (c.sdk.DnsZone_List (pageRequest c.folderID pageToken) w.state).2
              trace := w.trace ++ [Call.List (pageRequest c.folderID pageToken) (.ok resp)] })
        else
          ListZones.loop c fuel
            (zones ++ resp.DnsZones.map
              (fun zone => { ID := zone.Id, Name := zone.Zone,
                             IsPrivate := zone.PrivateVisibility.isSome }))
            resp.NextPageToken
            { state := (c.sdk.DnsZone_List (pageRequest c.folderID pageToken) w.state).2
              trace := w.trace ++ [Call.List (pageRequest c.folderID pageToken) (.ok resp)] } := by
  rw [ListZones.loop]
  simp only [SDK.List, appendPage_eq, Errorf_listZones]
  rw [show ({ FolderId := c.folderID, PageSize := 0, PageToken := pageToken, Filter := "" } :
      dns.ListDnsZonesRequest) = pageRequest c.folderID pageToken from rfl]
  cases h : (c.sdk.DnsZone_List (pageRequest c.folderID pageToken) w.state).1 <;> simp [h]

/-- The loop on a provider that serves the pages `pages`: with fuel for every
page it returns the accumulator extended by the mapped zones of all the pages,
after one call per page. -/
theorem loop_serves {σ : Type} (c : YandexClient σ) (pages : List dns.ListDnsZonesResponse) :
    ∀ (fuel : Nat) (zones : List Zone) (pageToken : String) (w : World σ),
      ServesPages c.sdk c.folderID w.state pageToken pages → pages.length ≤ fuel →
      ∃ w' : World σ,
        ListZones.loop c fuel zones pageToken w
          = some ((zones ++ pages.flatMap (fun p => p.DnsZones.map
              (fun zone => { ID := zone.Id, Name := zone.Zone,
                             IsPrivate := zone.PrivateVisibility.isSome })), none), w') ∧
        w'.trace.length = w.trace.length + pages.length := by
  induction pages with
  | nil => intro fuel zones pageToken w h; exact absurd h (by simp [ServesPages])
  | cons p rest ih =>
    intro fuel zones pageToken w h hfuel
    cases fuel with
    | zero => simp at hfuel
    | succ fuel =>
      cases rest with
      | nil =>
        obtain ⟨h1, h2⟩ := h
        rw [loop_succ, h1]
        simp [h2]
      | cons q rest =>
        obtain ⟨h1, h2, h3⟩ := h
        rw [loop_succ, h1]
        simp only [h2, if_false]
        have hlen : (q :: rest).length ≤ fuel := by
          simp only [List.length_cons] at hfuel ⊢
          omega
        obtain ⟨w', hw, htr⟩ := ih fuel
          (zones ++ p.DnsZones.map
            (fun zone => { ID := zone.Id, Name := zone.Zone,
                           IsPrivate := zone.PrivateVisibility.isSome }))
          p.NextPageToken
          { state := (c.sdk.DnsZone_List (pageRequest c.folderID pageToken) w.state).2
            trace := w.trace ++ [Call.List (pageRequest c.folderID pageToken) (.ok p)] }
          h3 hlen
        refine ⟨w', ?_, ?_⟩
        · rw [hw]
          simp
        · rw [htr]
          simp only [List.length_append, List.length_cons, List.length_nil]
          omega

/-- The loop on a provider that fails after the pages `pages`: with fuel for the
failing fetch it returns no zones and the error of that fetch, after one call
per page and one for the failing fetch. -/
theorem loop_fails {σ : Type} (c : YandexClient σ) (pages : List dns.ListDnsZonesResponse)
    (e : GoError) :
    ∀ (fuel : Nat) (zones : List Zone) (pageToken : String) (w : World σ),
      FailsAfterPages c.sdk c.folderID w.state pageToken pages e → pages.length + 1 ≤ fuel →
      ∃ w' : World σ,
        ListZones.loop c fuel zones pageToken w
          = some (([], some { Error := "failed to list zones: " ++ e.Error }), w') ∧
        w'.trace.length = w.trace.length + (pages.length + 1) := by
  induction pages with
  | nil =>
    intro fuel zones pageToken w h hfuel
    cases fuel with
    | zero => simp at hfuel
    | succ fuel =>
      have h1 : (c.sdk.DnsZone_List (pageRequest c.folderID pageToken) w.state).1 = .error e := h
      rw [loop_succ, h1]
      simp
  | cons p rest ih =>
    intro fuel zones pageToken w h hfuel
    cases fuel with
    | zero => simp at hfuel
    | succ fuel =>
      obtain ⟨h1, h2, h3⟩ := h
      rw [loop_succ, h1]
      simp only [h2, if_false]
      have hlen : rest.length + 1 ≤ fuel := by
        simp only [List.length_cons] at hfuel
        omega
      obtain ⟨w', hw, htr⟩ := ih fuel
        (zones ++ p.DnsZones.map
          (fun zone => { ID := zone.Id, Name := zone.Zone,
                         IsPrivate := zone.PrivateVisibility.isSome }))
        p.NextPageToken
        { state := (c.sdk.DnsZone_List (pageRequest c.folderID pageToken) w.state).2
          trace := w.trace ++ [Call.List (pageRequest c.folderID pageToken) (.ok p)] }
        h3 hlen
      refine ⟨w', hw, ?_⟩
      rw [htr]
      simp only [List.length_append, List.length_cons, List.length_nil]
      omega

/-- One link of the cursor chain, by the two components of the provider's
answer. -/
theorem chainEndsAt_succ {σ : Type} (sdk : SDK σ) (folderID : String) (n : Nat) (s : σ)
    (pageToken : String) :
    ChainEndsAt sdk folderID (n + 1) s pageToken ↔
      match (sdk.DnsZone_List (pageRequest folderID pageToken) s).1 with
      | .error _ => n = 0
      | .ok resp =>
        if resp.NextPageToken = "" then n = 0
        else ChainEndsAt sdk folderID n
          (sdk.DnsZone_List (pageRequest folderID pageToken) s).2 resp.NextPageToken := by
  rw [ChainEndsAt]
  rcases h : sdk.DnsZone_List (pageRequest folderID pageToken) s with ⟨r, s'⟩
  cases r <;> simp

/-- A cursor walk continued at its front by a successful page with a non-empty
next-cursor. -/
theorem cursorWalk_cons (folderID pageToken : String) (resp : dns.ListDnsZonesResponse)
    (steps : List Exchange) (hne : resp.NextPageToken ≠ "")
    (h : CursorWalk folderID resp.NextPageToken steps) :
    CursorWalk folderID pageToken ((pageRequest folderID pageToken, .ok resp) :: steps) := by
  cases steps with
  | nil => exact absurd h (by simp [CursorWalk])
  | cons y rest => exact ⟨rfl, hne, h⟩

/-- Every run of the loop that returns: the calls it added to the trace are a
cursor walk from the loop's cursor, as long as the provider's cursor chain; an
error is returned exactly when one of them failed, and it is the text
`failed to list zones: ` followed by the text of that failure. -/
theorem loop_run {σ : Type} (c : YandexClient σ) :
    ∀ (fuel : Nat) (zones : List Zone) (pageToken : String) (w : World σ)
      (r : List Zone × Option GoError) (w' : World σ),
      ListZones.loop c fuel zones pageToken w = some (r, w') →
      ∃ steps : List Exchange,
        w'.trace = w.trace ++ steps.map Exchange.toCall ∧
        CursorWalk c.folderID pageToken steps ∧
        ChainEndsAt c.sdk c.folderID steps.length w.state pageToken ∧
        steps.length ≤ fuel ∧
        (r.2 ≠ none ↔ ∃ call ∈ steps.map Exchange.toCall, call.err ≠ none) ∧
        (∀ call ∈ steps.map Exchange.toCall, ∀ e : GoError, call.err = some e →
          r = ([], some { Error := "failed to list zones: " ++ e.Error })) ∧
        Answered c.sdk w.state steps w'.state := by
  intro fuel
  induction fuel with
  | zero => intro zones pageToken w r w' h; simp [ListZones.loop] at h
  | succ fuel ih =>
    intro zones pageToken w r w' h
    rw [loop_succ] at h
    cases hr : (c.sdk.DnsZone_List (pageRequest c.folderID pageToken) w.state).1 with
    | error err =>
      rw [hr] at h
      simp only [Option.some.injEq, Prod.mk.injEq] at h
      obtain ⟨h1, h2⟩ := h
      subst h1 h2
      refine ⟨[(pageRequest c.folderID pageToken, .error err)], ?_, ?_, ?_, ?_, ?_, ?_, ?_⟩
      · simp [Exchange.toCall]
      · exact ⟨rfl, trivial⟩
      · rw [List.length_singleton, chainEndsAt_succ, hr]
      · simp
      · simp [Exchange.toCall, Call.err]
      · intro call hc e he
        simp only [List.map_cons, List.map_nil, List.mem_singleton, Exchange.toCall] at hc
        subst hc
        simp only [Call.err, Option.some.injEq] at he
        subst he
        rfl
      · exact ⟨hr, rfl⟩
    | ok resp =>
      rw [hr] at h
      by_cases hn : resp.NextPageToken = ""
      · simp only [hn, if_true, Option.some.injEq, Prod.mk.injEq] at h
        obtain ⟨h1, h2⟩ := h
        subst h1 h2
        refine ⟨[(pageRequest c.folderID pageToken, .ok resp)], ?_, ?_, ?_, ?_, ?_, ?_, ?_⟩
        · simp [Exchange.toCall]
        · exact ⟨rfl, hn⟩
        · rw [List.length_singleton, chainEndsAt_succ, hr]
          simp [hn]
        · simp
        · simp [Exchange.toCall, Call.err]
        · intro call hc e he
          simp only [List.map_cons, List.map_nil, List.mem_singleton, Exchange.toCall] at hc
          subst hc
          simp [Call.err] at he
        · exact ⟨hr, rfl⟩
      · simp only [hn, if_false] at h
        obtain ⟨steps, h1, h2, h3, h4, h5, h6, h7⟩ := ih _ _ _ _ _ h
        refine ⟨(pageRequest c.folderID pageToken, .ok resp) :: steps, ?_, ?_, ?_, ?_, ?_, ?_,
          ⟨hr, h7⟩⟩
        · rw [h1]
          simp [Exchange.toCall]
        · exact cursorWalk_cons _ _ _ _ hn h2
        · rw [List.length_cons, chainEndsAt_succ, hr]
          simpa [hn] using h3
        · simp only [List.length_cons]
          omega
        · rw [h5]
          simp [Exchange.toCall, Call.err]
        · intro call hc e he
          simp only [List.map_cons, List.mem_cons] at hc
          rcases hc with hc | hc
          · subst hc
            simp [Exchange.toCall, Call.err] at he
          · exact h6 call hc e he

/-- The loop returns exactly when its fuel covers the provider's cursor chain. -/
theorem loop_isSome_iff {σ : Type} (c : YandexClient σ) :
    ∀ (n fuel : Nat) (zones : List Zone) (pageToken : String) (w : World σ),
      ChainEndsAt c.sdk c.folderID n w.state pageToken →
      ((ListZones.loop c fuel zones pageToken w).isSome ↔ n ≤ fuel) := by
  intro n
  induction n with
  | zero => intro fuel zones pageToken w h; exact absurd h (by simp [ChainEndsAt])
  | succ n ih =>
    intro fuel zones pageToken w h
    cases fuel with
    | zero => simp [ListZones.loop]
    | succ fuel =>
      rw [chainEndsAt_succ] at h
      rw [loop_succ]
      cases hr : (c.sdk.DnsZone_List (pageRequest c.folderID pageToken) w.state).1 with
      | error err =>
        rw [hr] at h
        simp only at h
        subst h
        simp
      | ok resp =>
        rw [hr] at h
        by_cases hn : resp.NextPageToken = ""
        · simp only [hn, if_true] at h
          subst h
          simp [hn]
        · simp only [hn, if_false] at h ⊢
          rw [ih fuel _ _ _ h]
          omega

/-- A mapped list agrees element by element with the list it was mapped from. -/
theorem forall₂_map_self {α β : Type} (R : α → β → Prop) (f : α → β) (h : ∀ a, R a (f a))
    (l : List α) : List.Forall₂ R l (l.map f) := by
  induction l with
  | nil => exact List.Forall₂.nil
  | cons a l ih => exact List.Forall₂.cons (h a) ih

/-- Element-wise agreement is kept by concatenating mapped pages. -/
theorem forall₂_flatMap_map {α β γ : Type} (R : α → β → Prop) (f : α → β) (g : γ → List α)
    (h : ∀ a, R a (f a)) (l : List γ) :
    List.Forall₂ R (l.flatMap g) (l.flatMap (fun p => (g p).map f)) := by
  induction l with
  | nil => exact List.Forall₂.nil
  | cons p l ih =>
    simp only [List.flatMap_cons]
    exact List.rel_append (forall₂_map_self R f h (g p)) ih

/-- The result of `UpsertRecordSets` by the provider's answer, with the error
text written out. -/
theorem UpsertRecordSets_eq {σ : Type} (c : YandexClient σ) (req : UpsertRequest) (w : World σ) :
    UpsertRecordSets c req w =
      ((match (c.sdk.DnsZone_UpsertRecordSets (UpsertRecordSets.upsertReq req) w.state).1 with
        | .error err => some { Error := "failed to upsert record sets: " ++ err.Error }
        | .ok _ => none),
       { state := (c.sdk.DnsZone_UpsertRecordSets (UpsertRecordSets.upsertReq req) w.state).2
         trace := w.trace ++ [Call.UpsertRecordSets (UpsertRecordSets.upsertReq req)
           (c.sdk.DnsZone_UpsertRecordSets (UpsertRecordSets.upsertReq req) w.state).1] }) := by
  unfold UpsertRecordSets
  simp only [SDK.UpsertRecordSets, Errorf_upsertRecordSets]
  cases h : (c.sdk.DnsZone_UpsertRecordSets (UpsertRecordSets.upsertReq req) w.state).1 <;>
    simp [h]

/-- The result of `ListRecordSets` by the provider's answer, with the mapping
and the error text written out. -/
theorem ListRecordSets_eq {σ : Type} (c : YandexClient σ) (zoneID : String) (w : World σ) :
    ListRecordSets c zoneID w =
      ((match (c.sdk.DnsZone_ListRecordSets
            { DnsZoneId := zoneID, PageSize := 0, PageToken := "", Filter := "" } w.state).1 with
        | .error err => ([], some { Error := "failed to list record sets: " ++ err.Error })
        | .ok resp =>
          (resp.RecordSets.map
            (fun r => { Name := r.Name, Type_ := r.Type_, TTL := r.Ttl, Data := r.Data }), none)),
       { state := (c.sdk.DnsZone_ListRecordSets
            { DnsZoneId := zoneID, PageSize := 0, PageToken := "", Filter := "" } w.state).2
         trace := w.trace ++ [Call.ListRecordSets
           { DnsZoneId := zoneID, PageSize := 0, PageToken := "", Filter := "" }
           (c.sdk.DnsZone_ListRecordSets
            { DnsZoneId := zoneID, PageSize := 0, PageToken := "", Filter := "" } w.state).1] }) := by
  unfold ListRecordSets
  simp only [SDK.ListRecordSets, Errorf_listRecordSets, recordSets_eq]
  cases h : (c.sdk.DnsZone_ListRecordSets
      { DnsZoneId := zoneID, PageSize := 0, PageToken := "", Filter := "" } w.state).1 <;>
    simp [h]

/-- A client returned by the constructor is bound to the folder ID the
constructor was given. -/
theorem NewYandexClient_folderID {σ Key Creds : Type} (ext : Externals σ Key Creds)
    (folderID authKeyFile endpoint : String) (w w' : World σ) (c : YandexClient σ)
    (err : Option GoError)
    (h : NewYandexClient ext folderID authKeyFile endpoint w = ((some c, err), w')) :
    c.folderID = folderID := by
  unfold NewYandexClient at h
  split at h
  · simp at h
  · split at h
    · simp at h
    · split at h
      · simp at h
      · split at h
        · simp at h
        · split at h <;>
          · simp only at h
            split at h
            · simp at h
            · simp only [Prod.mk.injEq, Option.some.injEq] at h
              rw [← h.1.1]

/-- No error text of one operation is an error text of another: the three
fixed beginnings differ before any of them ends. -/
theorem error_texts_disjoint (a b : String) :
    "failed to list zones: " ++ a ≠ "failed to list record sets: " ++ b ∧
    "failed to list zones: " ++ a ≠ "failed to upsert record sets: " ++ b ∧
    "failed to list record sets: " ++ a ≠ "failed to upsert record sets: " ++ b := by
  refine ⟨?_, ?_, ?_⟩ <;>
  · intro h
    have h' := congrArg String.data h
    simp at h'

/-- Every request of a cursor walk is for the walk's folder. -/
theorem cursorWalk_folder (folderID : String) (steps : List Exchange) :
    ∀ pageToken : String, CursorWalk folderID pageToken steps →
      ∀ x ∈ steps, x.1.FolderId = folderID := by
  induction steps with
  | nil => intro pageToken h; exact absurd h (by simp [CursorWalk])
  | cons x rest ih =>
    intro pageToken h y hy
    cases rest with
    | nil =>
      simp only [List.mem_singleton] at hy
      subst hy
      rw [h.1]
      rfl
    | cons z rest =>
      obtain ⟨h1, h2⟩ := h
      rcases List.mem_cons.mp hy with hy | hy
      · subst hy
        rw [h1]
        rfl
      · cases hx : x.2 with
        | error err => rw [hx] at h2; exact absurd h2 (by simp)
        | ok resp =>
          rw [hx] at h2
          exact ih resp.NextPageToken h2.2 y hy

/-- The first request of a cursor walk carries the walk's starting cursor. -/
theorem cursorWalk_head (folderID pageToken : String) (steps : List Exchange)
    (h : CursorWalk folderID pageToken steps) :
    (steps.head?.map (fun x => x.1.PageToken)) = some pageToken := by
  cases steps with
  | nil => exact absurd h (by simp [CursorWalk])
  | cons x rest =>
    cases rest with
    | nil => simp [h.1, pageRequest]
    | cons z rest => simp [h.1, pageRequest]

/-- Mapping a list there and back with two functions of which the second
undoes the first gives the list again. -/
theorem map_map_cancel {α β : Type} (f : α → β) (g : β → α) (h : ∀ a, g (f a) = a)
    (l : List α) : (l.map f).map g = l := by
  induction l with
  | nil => rfl
  | cons a l ih => simp only [List.map_cons, h a, ih]

/-- The cursor chain of a provider has one length. -/
theorem chainEndsAt_unique {σ : Type} (c : YandexClient σ) (w : World σ) (pageToken : String)
    (n m : Nat) (hn : ChainEndsAt c.sdk c.folderID n w.state pageToken)
    (hm : ChainEndsAt c.sdk c.folderID m w.state pageToken) : n = m := by
  have h1 := (loop_isSome_iff c n m [] pageToken w hn).mp
    ((loop_isSome_iff c m m [] pageToken w hm).mpr (Nat.le_refl m))
  have h2 := (loop_isSome_iff c m n [] pageToken w hm).mp
    ((loop_isSome_iff c n n [] pageToken w hn).mpr (Nat.le_refl n))
  omega

/-! ## The claims -/

/-- C1: if the provider's answers, followed from the empty cursor, are `N ≥ 1`
successful pages with non-empty next-cursors on pages `1..N-1` and an empty
next-cursor on page `N`, then `ListZones`, given fuel for `N` pages, succeeds
and returns exactly the concatenation of the mapped zones of the pages, in
provider order; a single page without zones gives the empty sequence and no
error. -/
theorem ListZones_pagination_complete {σ : Type} (c : YandexClient σ) (w : World σ)
    (pages : List dns.ListDnsZonesResponse) (fuel : Nat)
    (hserve : ServesPages c.sdk c.folderID w.state "" pages) (hfuel : pages.length ≤ fuel) :
    1 ≤ pages.length ∧
    (∃ w' : World σ,
      ListZones fuel c w
        = some ((pages.flatMap (fun p => p.DnsZones.map
            (fun zone => { ID := zone.Id, Name := zone.Zone,
                           IsPrivate := zone.PrivateVisibility.isSome })), none), w')) ∧
    (∀ p : dns.ListDnsZonesResponse, pages = [p] → p.DnsZones = [] →
      ∃ w' : World σ, ListZones fuel c w = some (([], none), w')) := by
  obtain ⟨w', hw, _⟩ := loop_serves c pages fuel [] "" w hserve hfuel
  rw [List.nil_append] at hw
  refine ⟨?_, ⟨w', hw⟩, ?_⟩
  · cases pages with
    | nil => exact absurd hserve (by simp [ServesPages])
    | cons p rest => simp
  · intro p hp hz
    refine ⟨w', ?_⟩
    rw [ListZones, hw, hp]
    simp [hz]

/-- C1 on the two pages of folder `f1`, and on the page without zones of folder
`empty`. -/
theorem ListZones_pagination_complete_witness :
    (1 ≤ [examplePage1, examplePage2].length ∧
      (∃ w' : World Nat,
        ListZones 2 (exampleClient "f1") exampleWorld
          = some (([examplePage1, examplePage2].flatMap (fun p => p.DnsZones.map
              (fun zone => { ID := zone.Id, Name := zone.Zone,
                             IsPrivate := zone.PrivateVisibility.isSome })), none), w')) ∧
      (∀ p : dns.ListDnsZonesResponse, [examplePage1, examplePage2] = [p] → p.DnsZones = [] →
        ∃ w' : World Nat, ListZones 2 (exampleClient "f1") exampleWorld = some (([], none), w'))) ∧
    (∃ w' : World Nat, ListZones 1 (exampleClient "empty") exampleWorld = some (([], none), w')) :=
  ⟨ListZones_pagination_complete (exampleClient "f1") exampleWorld [examplePage1, examplePage2] 2
      ⟨rfl, by decide, rfl, rfl⟩ (by decide),
   (ListZones_pagination_complete (exampleClient "empty") exampleWorld
      [{ DnsZones := [], NextPageToken := "" }] 1 ⟨rfl, rfl⟩ (by decide)).2.2 _ rfl rfl⟩

/-- C2: if pages `1..k-1` of the zone listing succeed with non-empty
next-cursors and the fetch of page `k` fails with `e`, then `ListZones`, given
fuel for `k` fetches, returns no zones together with the error made from `e`,
and the calls it made are exactly `k`: no page after `k` is fetched. -/
theorem ListZones_short_circuit {σ : Type} (c : YandexClient σ) (w : World σ)
    (pages : List dns.ListDnsZonesResponse) (e : GoError) (fuel : Nat)
    (hfail : FailsAfterPages c.sdk c.folderID w.state "" pages e)
    (hfuel : pages.length + 1 ≤ fuel) :
    ∃ (w' : World σ) (steps : List Exchange),
      ListZones fuel c w
        = some (([], some (fmt.Errorf "failed to list zones: %v" [e])), w') ∧
      fmt.Errorf "failed to list zones: %v" [e]
        = { Error := "failed to list zones: " ++ e.Error } ∧
      w'.trace = w.trace ++ steps.map Exchange.toCall ∧
      steps.length = pages.length + 1 := by
  obtain ⟨w', hw, htr⟩ := loop_fails c pages e fuel [] "" w hfail hfuel
  obtain ⟨steps, h1, _⟩ := loop_run c fuel [] "" w _ w' hw
  refine ⟨w', steps, ?_, Errorf_listZones e, h1, ?_⟩
  · rw [ListZones, hw, Errorf_listZones]
  · have hlen := congrArg List.length h1
    rw [htr, List.length_append, List.length_map] at hlen
    omega

/-- C2 on folder `f2`, whose first page succeeds and whose second fetch fails:
the two zones of the first page are not returned. -/
theorem ListZones_short_circuit_witness :
    ∃ (w' : World Nat) (steps : List Exchange),
      ListZones 2 (exampleClient "f2") exampleWorld
        = some (([], some (fmt.Errorf "failed to list zones: %v" [{ Error := "unavailable" }])),
            w') ∧
      fmt.Errorf "failed to list zones: %v" [{ Error := "unavailable" }]
        = { Error := "failed to list zones: " ++ "unavailable" } ∧
      w'.trace = exampleWorld.trace ++ steps.map Exchange.toCall ∧
      steps.length = [examplePage1].length + 1 :=
  ListZones_short_circuit (exampleClient "f2") exampleWorld [examplePage1]
    { Error := "unavailable" } 2 ⟨rfl, by decide, rfl⟩ (by decide)

/-- C5: on a provider that serves the pages `pages`, the zones `ListZones`
returns agree one by one, in order, with the provider zones of the pages: same
id, name equal to the provider zone's zone name, and `IsPrivate` true exactly
when the private-visibility sub-object is present, whatever the
public-visibility sub-object is. -/
theorem ListZones_zone_mapping {σ : Type} (c : YandexClient σ) (w : World σ)
    (pages : List dns.ListDnsZonesResponse) (fuel : Nat)
    (hserve : ServesPages c.sdk c.folderID w.state "" pages) (hfuel : pages.length ≤ fuel) :
    ∃ (zones : List Zone) (w' : World σ),
      ListZones fuel c w = some ((zones, none), w') ∧
      List.Forall₂
        (fun (p : dns.DnsZone) (z : Zone) =>
          z.ID = p.Id ∧ z.Name = p.Zone ∧ (z.IsPrivate = true ↔ p.PrivateVisibility ≠ none) ∧
            (p.PrivateVisibility = none → z.IsPrivate = false))
        (pages.flatMap (fun p => p.DnsZones)) zones := by
  obtain ⟨w', hw, _⟩ := loop_serves c pages fuel [] "" w hserve hfuel
  rw [List.nil_append] at hw
  refine ⟨_, w', hw, ?_⟩
  apply forall₂_flatMap_map
  intro a
  cases h : a.PrivateVisibility <;> simp

/-- C5 on folder `f1`: the private zone `z1`, the public zone `z2` and the zone
`z3` without visibility are mapped to `IsPrivate` true, false and false. -/
theorem ListZones_zone_mapping_witness :
    (∃ (zones : List Zone) (w' : World Nat),
      ListZones 5 (exampleClient "f1") exampleWorld = some ((zones, none), w') ∧
      List.Forall₂
        (fun (p : dns.DnsZone) (z : Zone) =>
          z.ID = p.Id ∧ z.Name = p.Zone ∧ (z.IsPrivate = true ↔ p.PrivateVisibility ≠ none) ∧
            (p.PrivateVisibility = none → z.IsPrivate = false))
        ([examplePage1, examplePage2].flatMap (fun p => p.DnsZones)) zones) ∧
    (ListZones 5 (exampleClient "f1") exampleWorld).map (fun out => out.1)
      = some ([{ ID := "z1", Name := "example.com.", IsPrivate := true },
               { ID := "z2", Name := "example.com.", IsPrivate := false },
               { ID := "z3", Name := "example.org.", IsPrivate := false }], none) :=
  ⟨ListZones_zone_mapping (exampleClient "f1") exampleWorld [examplePage1, examplePage2] 5
      ⟨rfl, by decide, rfl, rfl⟩ (by decide), by decide⟩

/-- C3: for every request, `UpsertRecordSets` adds exactly one call to the
trace, whatever its outcome; the call carries the request's zone ID and three
sequences as long as the request's three buckets, whose entries agree one by
one, in order and bucket by bucket, with the entries of the request in name,
type, ttl and data. -/
theorem UpsertRecordSets_forwards_buckets {σ : Type} (c : YandexClient σ) (req : UpsertRequest)
    (w : World σ) :
    ∃ (wire : dns.UpsertRecordSetsRequest) (res : Except GoError Operation),
      (UpsertRecordSets c req w).2.trace = w.trace ++ [Call.UpsertRecordSets wire res] ∧
      res = (c.sdk.DnsZone_UpsertRecordSets wire w.state).1 ∧
      wire.DnsZoneId = req.DnsZoneID ∧
      wire.Deletions.length = req.Deletions.length ∧
      wire.Replacements.length = req.Replacements.length ∧
      wire.Merges.length = req.Merges.length ∧
      List.Forall₂
        (fun (r : RecordSet) (p : dns.RecordSet) =>
          p.Name = r.Name ∧ p.Type_ = r.Type_ ∧ p.Ttl = r.TTL ∧ p.Data = r.Data)
        req.Deletions wire.Deletions ∧
      List.Forall₂
        (fun (r : RecordSet) (p : dns.RecordSet) =>
          p.Name = r.Name ∧ p.Type_ = r.Type_ ∧ p.Ttl = r.TTL ∧ p.Data = r.Data)
        req.Replacements wire.Replacements ∧
      List.Forall₂
        (fun (r : RecordSet) (p : dns.RecordSet) =>
          p.Name = r.Name ∧ p.Type_ = r.Type_ ∧ p.Ttl = r.TTL ∧ p.Data = r.Data)
        req.Merges wire.Merges := by
  refine ⟨UpsertRecordSets.upsertReq req,
    (c.sdk.DnsZone_UpsertRecordSets (UpsertRecordSets.upsertReq req) w.state).1, ?_, rfl, ?_⟩
  · rw [UpsertRecordSets_eq]
  · rw [upsertReq_eq]
    refine ⟨rfl, by simp, by simp, by simp, ?_, ?_, ?_⟩ <;>
      exact forall₂_map_self _ _ (fun _ => ⟨rfl, rfl, rfl, rfl⟩) _

/-- C4: for every zone ID, when the provider answers the record-set listing
with `resp`, `ListRecordSets` returns no error and a sequence as long as
`resp.RecordSets` whose entries agree one by one, in order, with the provider's
in name, type, ttl and data. -/
theorem ListRecordSets_maps_response {σ : Type} (c : YandexClient σ) (zoneID : String)
    (w : World σ) (resp : dns.ListDnsZoneRecordSetsResponse)
    (hresp : (c.sdk.DnsZone_ListRecordSets
        { DnsZoneId := zoneID, PageSize := 0, PageToken := "", Filter := "" } w.state).1
      = .ok resp) :
    ∃ (recordSets : List RecordSet) (w' : World σ),
      ListRecordSets c zoneID w = ((recordSets, none), w') ∧
      recordSets.length = resp.RecordSets.length ∧
      List.Forall₂
        (fun (p : dns.RecordSet) (r : RecordSet) =>
          r.Name = p.Name ∧ r.Type_ = p.Type_ ∧ r.TTL = p.Ttl ∧ r.Data = p.Data)
        resp.RecordSets recordSets := by
  rw [ListRecordSets_eq, hresp]
  exact ⟨_, _, rfl, List.length_map _ _,
    forall₂_map_self _ _ (fun _ => ⟨rfl, rfl, rfl, rfl⟩) _⟩

/-- C4 on zone `z1`: the two record sets come back in the provider's order, the
data `b, a, b` of the second neither sorted nor deduplicated. -/
theorem ListRecordSets_maps_response_witness :
    (∃ (recordSets : List RecordSet) (w' : World Nat),
      ListRecordSets (exampleClient "f1") "z1" exampleWorld = ((recordSets, none), w') ∧
      recordSets.length
        = [exampleWww, { Name := "txt", Type_ := "TXT", Ttl := 60, Data := ["b", "a", "b"] }].length ∧
      List.Forall₂
        (fun (p : dns.RecordSet) (r : RecordSet) =>
          r.Name = p.Name ∧ r.Type_ = p.Type_ ∧ r.TTL = p.Ttl ∧ r.Data = p.Data)
        [exampleWww, { Name := "txt", Type_ := "TXT", Ttl := 60, Data := ["b", "a", "b"] }]
        recordSets) ∧
    (ListRecordSets (exampleClient "f1") "z1" exampleWorld).1
      = ([{ Name := "www", Type_ := "A", TTL := 300, Data := ["1.2.3.4", "1.2.3.3"] },
          { Name := "txt", Type_ := "TXT", TTL := 60, Data := ["b", "a", "b"] }], none) :=
  ⟨ListRecordSets_maps_response (exampleClient "f1") "z1" exampleWorld
      { RecordSets :=
          [exampleWww, { Name := "txt", Type_ := "TXT", Ttl := 60, Data := ["b", "a", "b"] }]
        NextPageToken := "" } rfl, by decide⟩

/-- C6: with the empty string as `authKeyFile`, `NewYandexClient` returns no
client and the error `auth-key-file must be set`, and leaves the world as it
was: no file is read, no key is parsed, no credentials or SDK are built. -/
theorem NewYandexClient_empty_key_file {σ Key Creds : Type} (ext : Externals σ Key Creds)
    (folderID : String) (endpoint : String) (w : World σ) :
    NewYandexClient ext folderID "" endpoint w
      = ((none, some { Error := "auth-key-file must be set" }), w) := by
  rfl

/-- C8: a request with three empty buckets is forwarded. `UpsertRecordSets`
really issues the one provider call: the world after it is the provider's
state after answering the request with the zone ID and three empty buckets,
and the trace extended by that one call with the provider's own answer. The
result is an error only when the provider failed that call, and nil whenever
the provider accepted it. -/
theorem UpsertRecordSets_empty_buckets {σ : Type} (c : YandexClient σ) (zoneID : String)
    (w : World σ) :
    (UpsertRecordSets c
        { DnsZoneID := zoneID, Deletions := [], Replacements := [], Merges := [] } w).2
      = { state := (c.sdk.DnsZone_UpsertRecordSets
            { DnsZoneId := zoneID, Deletions := [], Replacements := [], Merges := [] } w.state).2
          trace := w.trace ++ [Call.UpsertRecordSets
            { DnsZoneId := zoneID, Deletions := [], Replacements := [], Merges := [] }
            (c.sdk.DnsZone_UpsertRecordSets
              { DnsZoneId := zoneID, Deletions := [], Replacements := [], Merges := [] }
              w.state).1] } ∧
    (∀ op : Operation,
      (c.sdk.DnsZone_UpsertRecordSets
          { DnsZoneId := zoneID, Deletions := [], Replacements := [], Merges := [] } w.state).1
        = .ok op →
      (UpsertRecordSets c
          { DnsZoneID := zoneID, Deletions := [], Replacements := [], Merges := [] } w).1
        = none) ∧
    ((UpsertRecordSets c
          { DnsZoneID := zoneID, Deletions := [], Replacements := [], Merges := [] } w).1 ≠ none ↔
      ∃ e : GoError,
        (c.sdk.DnsZone_UpsertRecordSets
          { DnsZoneId := zoneID, Deletions := [], Replacements := [], Merges := [] } w.state).1
        = .error e) := by
  have hreq : UpsertRecordSets.upsertReq
      { DnsZoneID := zoneID, Deletions := [], Replacements := [], Merges := [] }
      = { DnsZoneId := zoneID, Deletions := [], Replacements := [], Merges := [] } := rfl
  rw [UpsertRecordSets_eq, hreq]
  refine ⟨rfl, ?_, ?_⟩
  · intro op hop
    rw [hop]
  · cases (c.sdk.DnsZone_UpsertRecordSets
      { DnsZoneId := zoneID, Deletions := [], Replacements := [], Merges := [] } w.state).1 <;>
      simp

/-- C8 on zone `z1`, which accepts upserts: the empty request reaches the
provider, whose call counter goes from 0 to 1 and whose answer `op1` is in the
trace, and the result is nil. -/
theorem UpsertRecordSets_empty_buckets_witness :
    (UpsertRecordSets (exampleClient "f1")
        { DnsZoneID := "z1", Deletions := [], Replacements := [], Merges := [] } exampleWorld).1
      = none ∧
    (UpsertRecordSets (exampleClient "f1")
        { DnsZoneID := "z1", Deletions := [], Replacements := [], Merges := [] } exampleWorld).2
      = { state := 1
          trace := [Call.UpsertRecordSets
            { DnsZoneId := "z1", Deletions := [], Replacements := [], Merges := [] }
            (.ok { Id := "op1" })] } :=
  ⟨(UpsertRecordSets_empty_buckets (exampleClient "f1") "z1" exampleWorld).2.1 { Id := "op1" } rfl,
   (UpsertRecordSets_empty_buckets (exampleClient "f1") "z1" exampleWorld).1⟩

/-- C7: each operation returns an error exactly when a provider call it made
failed, and the error text is then the operation's fixed beginning followed by
the text of the provider's error.

`ListZones`: when the provider's cursor chain from the empty cursor has `n`
pages, every fuel that covers `n` produces a result; the `n` calls added to
the trace are the cursor walk from the empty cursor, carry the provider's own
answers and lead to the provider's state; an
error is returned exactly when one of them failed, and it is
`failed to list zones: ` followed by that failure's text. Every run that
returns is such a run.

`ListRecordSets` and `UpsertRecordSets`: the world after the operation is the
provider's state after the one call, with that call and the provider's own
answer added to the trace; an error is returned exactly when the provider
answered with an error `e`, and it is `failed to list record sets: `,
respectively `failed to upsert record sets: `, followed by the text of `e`.

No text of one of the three forms is a text of another, so the error tells
which operation failed. -/
theorem errors_carry_provider_failure {σ : Type} (c : YandexClient σ) (w : World σ) :
    (∀ n fuel : Nat, ChainEndsAt c.sdk c.folderID n w.state "" → n ≤ fuel →
      ∃ (r : List Zone × Option GoError) (w' : World σ) (steps : List Exchange),
        ListZones fuel c w = some (r, w') ∧
        w'.trace = w.trace ++ steps.map Exchange.toCall ∧
        steps.length = n ∧
        CursorWalk c.folderID "" steps ∧
        Answered c.sdk w.state steps w'.state ∧
        (r.2 ≠ none ↔ ∃ call ∈ steps.map Exchange.toCall, call.err ≠ none) ∧
        (∀ call ∈ steps.map Exchange.toCall, ∀ e : GoError, call.err = some e →
          r.2 = some (fmt.Errorf "failed to list zones: %v" [e]) ∧
          r.2 = some { Error := "failed to list zones: " ++ e.Error })) ∧
    (∀ fuel : Nat, (ListZones fuel c w).isSome →
      ∃ n : Nat, n ≤ fuel ∧ ChainEndsAt c.sdk c.folderID n w.state "") ∧
    (∀ zoneID : String,
      (ListRecordSets c zoneID w).2
        = { state := (c.sdk.DnsZone_ListRecordSets
              { DnsZoneId := zoneID, PageSize := 0, PageToken := "", Filter := "" } w.state).2
            trace := w.trace ++ [Call.ListRecordSets
              { DnsZoneId := zoneID, PageSize := 0, PageToken := "", Filter := "" }
              (c.sdk.DnsZone_ListRecordSets
                { DnsZoneId := zoneID, PageSize := 0, PageToken := "", Filter := "" }
                w.state).1] } ∧
      ((ListRecordSets c zoneID w).1.2 ≠ none ↔
        ∃ e : GoError,
          (c.sdk.DnsZone_ListRecordSets
            { DnsZoneId := zoneID, PageSize := 0, PageToken := "", Filter := "" } w.state).1
          = .error e) ∧
      (∀ e : GoError,
        (c.sdk.DnsZone_ListRecordSets
            { DnsZoneId := zoneID, PageSize := 0, PageToken := "", Filter := "" } w.state).1
          = .error e →
        (ListRecordSets c zoneID w).1
          = ([], some (fmt.Errorf "failed to list record sets: %v" [e])) ∧
        (ListRecordSets c zoneID w).1.2
          = some { Error := "failed to list record sets: " ++ e.Error })) ∧
    (∀ req : UpsertRequest,
      (UpsertRecordSets c req w).2
        = { state := (c.sdk.DnsZone_UpsertRecordSets (UpsertRecordSets.upsertReq req) w.state).2
            trace := w.trace ++ [Call.UpsertRecordSets (UpsertRecordSets.upsertReq req)
              (c.sdk.DnsZone_UpsertRecordSets (UpsertRecordSets.upsertReq req) w.state).1] } ∧
      ((UpsertRecordSets c req w).1 ≠ none ↔
        ∃ e : GoError,
          (c.sdk.DnsZone_UpsertRecordSets (UpsertRecordSets.upsertReq req) w.state).1
          = .error e) ∧
      (∀ e : GoError,
        (c.sdk.DnsZone_UpsertRecordSets (UpsertRecordSets.upsertReq req) w.state).1 = .error e →
        (UpsertRecordSets c req w).1
          = some (fmt.Errorf "failed to upsert record sets: %v" [e]) ∧
        (UpsertRecordSets c req w).1
          = some { Error := "failed to upsert record sets: " ++ e.Error })) ∧
    (∀ a b : String,
      "failed to list zones: " ++ a ≠ "failed to list record sets: " ++ b ∧
      "failed to list zones: " ++ a ≠ "failed to upsert record sets: " ++ b ∧
      "failed to list record sets: " ++ a ≠ "failed to upsert record sets: " ++ b) := by
  refine ⟨?_, ?_, ?_, ?_, error_texts_disjoint⟩
  · intro n fuel hn hfuel
    have hsome := (loop_isSome_iff c n fuel [] "" w hn).mpr hfuel
    obtain ⟨⟨r, w'⟩, hr⟩ := Option.isSome_iff_exists.mp hsome
    obtain ⟨steps, h1, h2, h3, _, h5, h6, h7⟩ := loop_run c fuel [] "" w r w' hr
    refine ⟨r, w', steps, hr, h1, chainEndsAt_unique c w "" _ _ h3 hn, h2, h7, h5, ?_⟩
    intro call hc e he
    rw [h6 call hc e he, Errorf_listZones]
    exact ⟨rfl, rfl⟩
  · intro fuel h
    obtain ⟨⟨r, w'⟩, hr⟩ := Option.isSome_iff_exists.mp h
    obtain ⟨steps, _, _, h3, h4, _⟩ := loop_run c fuel [] "" w r w' hr
    exact ⟨steps.length, h4, h3⟩
  · intro zoneID
    rw [ListRecordSets_eq]
    refine ⟨rfl, ?_, ?_⟩
    · cases (c.sdk.DnsZone_ListRecordSets
        { DnsZoneId := zoneID, PageSize := 0, PageToken := "", Filter := "" } w.state).1 <;>
        simp
    · intro e he
      rw [he, Errorf_listRecordSets]
      exact ⟨rfl, rfl⟩
  · intro req
    rw [UpsertRecordSets_eq]
    refine ⟨rfl, ?_, ?_⟩
    · cases (c.sdk.DnsZone_UpsertRecordSets (UpsertRecordSets.upsertReq req) w.state).1 <;>
        simp
    · intro e he
      rw [he, Errorf_upsertRecordSets]
      exact ⟨rfl, rfl⟩

/-- C7 on the example provider. Folder `f2`, whose second fetch fails with
`unavailable`: two units of fuel produce the error
`failed to list zones: unavailable`. Zone `zX`, unknown to the provider:
`ListRecordSets` and `UpsertRecordSets` return the provider's
`zone not found` behind their own beginnings. -/
theorem errors_carry_provider_failure_witness :
    (∃ (r : List Zone × Option GoError) (w' : World Nat) (steps : List Exchange),
      ListZones 2 (exampleClient "f2") exampleWorld = some (r, w') ∧
      w'.trace = exampleWorld.trace ++ steps.map Exchange.toCall ∧
      steps.length = 2 ∧
      CursorWalk (exampleClient "f2").folderID "" steps ∧
      Answered (exampleClient "f2").sdk exampleWorld.state steps w'.state ∧
      (r.2 ≠ none ↔ ∃ call ∈ steps.map Exchange.toCall, call.err ≠ none) ∧
      (∀ call ∈ steps.map Exchange.toCall, ∀ e : GoError, call.err = some e →
        r.2 = some (fmt.Errorf "failed to list zones: %v" [e]) ∧
        r.2 = some { Error := "failed to list zones: " ++ e.Error })) ∧
    (ListZones 2 (exampleClient "f2") exampleWorld).map (fun out => out.1)
      = some ([], some { Error := "failed to list zones: unavailable" }) ∧
    (ListRecordSets (exampleClient "f1") "zX" exampleWorld).1.2
      = some { Error := "failed to list record sets: " ++ "zone not found" } ∧
    (UpsertRecordSets (exampleClient "f1")
        { DnsZoneID := "zX", Deletions := [], Replacements := [], Merges := [] }
        exampleWorld).1
      = some { Error := "failed to upsert record sets: " ++ "zone not found" } :=
  ⟨(errors_carry_provider_failure (exampleClient "f2") exampleWorld).1 2 2
      (by simp [ChainEndsAt, exampleClient, exampleSDK, exampleWorld, pageRequest, examplePage1])
      (by decide),
    by decide,
    ((errors_carry_provider_failure (exampleClient "f1") exampleWorld).2.2.1 "zX").2.2
      { Error := "zone not found" } rfl |>.2,
    ((errors_carry_provider_failure (exampleClient "f1") exampleWorld).2.2.2.1
      { DnsZoneID := "zX", Deletions := [], Replacements := [], Merges := [] }).2.2
      { Error := "zone not found" } rfl |>.2⟩

/-- C9: on every run of `ListZones` that returns, the calls added to the trace
are zone-listing calls forming a cursor walk: the first carries the empty
cursor, each later one the non-empty next-cursor of the answer before it, all
carry the client's folder ID, and the last answer is the first that fails or
carries the empty next-cursor. `ListZones` returns for some fuel exactly when
the provider's cursor chain from the empty cursor ends after finitely many
pages, it then returns exactly for the fuels that cover the chain, and the
number of calls is the number of pages of the chain. The folder ID of a client
is the one given to its constructor. -/
theorem ListZones_cursor_walk {σ : Type} (c : YandexClient σ) (w : World σ) :
    (∀ (fuel : Nat) (r : List Zone × Option GoError) (w' : World σ),
      ListZones fuel c w = some (r, w') →
      ∃ steps : List Exchange,
        w'.trace = w.trace ++ steps.map Exchange.toCall ∧
        CursorWalk c.folderID "" steps ∧
        steps.head?.map (fun x => x.1.PageToken) = some "" ∧
        (∀ x ∈ steps, x.1.FolderId = c.folderID) ∧
        ChainEndsAt c.sdk c.folderID steps.length w.state "") ∧
    ((∃ fuel : Nat, (ListZones fuel c w).isSome) ↔
      ∃ n : Nat, ChainEndsAt c.sdk c.folderID n w.state "") ∧
    (∀ n : Nat, ChainEndsAt c.sdk c.folderID n w.state "" →
      ∀ fuel : Nat, (ListZones fuel c w).isSome ↔ n ≤ fuel) ∧
    (∀ (Key Creds : Type) (ext : Externals σ Key Creds) (folderID authKeyFile endpoint : String)
      (w₀ w₁ : World σ) (err : Option GoError),
      NewYandexClient ext folderID authKeyFile endpoint w₀ = ((some c, err), w₁) →
      c.folderID = folderID) := by
  refine ⟨?_, ⟨?_, ?_⟩, ?_, ?_⟩
  · intro fuel r w' h
    obtain ⟨steps, h1, h2, h3, _⟩ := loop_run c fuel [] "" w r w' h
    exact ⟨steps, h1, h2, cursorWalk_head _ _ _ h2, cursorWalk_folder _ _ _ h2, h3⟩
  · rintro ⟨fuel, h⟩
    obtain ⟨⟨r, w'⟩, hr⟩ := Option.isSome_iff_exists.mp h
    obtain ⟨steps, _, _, h3, _⟩ := loop_run c fuel [] "" w r w' hr
    exact ⟨steps.length, h3⟩
  · rintro ⟨n, h⟩
    exact ⟨n, (loop_isSome_iff c n n [] "" w h).mpr (Nat.le_refl n)⟩
  · intro n h fuel
    exact loop_isSome_iff c n fuel [] "" w h
  · intro Key Creds ext folderID authKeyFile endpoint w₀ w₁ err h
    exact NewYandexClient_folderID ext folderID authKeyFile endpoint w₀ w₁ c err h

/-- C9 on folder `f1`: two calls, with the cursors `""` and `t1`; one unit of
fuel is not enough, two are. -/
theorem ListZones_cursor_walk_witness :
    (∃ steps : List Exchange,
      [Call.List (pageRequest "f1" "") (.ok examplePage1),
        Call.List (pageRequest "f1" "t1") (.ok examplePage2)]
        = exampleWorld.trace ++ steps.map Exchange.toCall ∧
      CursorWalk (exampleClient "f1").folderID "" steps ∧
      steps.head?.map (fun x => x.1.PageToken) = some "" ∧
      (∀ x ∈ steps, x.1.FolderId = (exampleClient "f1").folderID) ∧
      ChainEndsAt (exampleClient "f1").sdk (exampleClient "f1").folderID steps.length
        exampleWorld.state "") ∧
    ((ListZones 1 (exampleClient "f1") exampleWorld).isSome ↔ 2 ≤ 1) ∧
    ((ListZones 2 (exampleClient "f1") exampleWorld).isSome ↔ 2 ≤ 2) :=
  ⟨(ListZones_cursor_walk (exampleClient "f1") exampleWorld).1 2
      ((ListZones 2 (exampleClient "f1") exampleWorld).get rfl).1
      { state := 2
        trace := [Call.List (pageRequest "f1" "") (.ok examplePage1),
          Call.List (pageRequest "f1" "t1") (.ok examplePage2)] }
      rfl,
    (ListZones_cursor_walk (exampleClient "f1") exampleWorld).2.2.1 2
      (by simp [ChainEndsAt, exampleClient, exampleSDK, exampleWorld, pageRequest, examplePage1,
        examplePage2]) 1,
    (ListZones_cursor_walk (exampleClient "f1") exampleWorld).2.2.1 2
      (by simp [ChainEndsAt, exampleClient, exampleSDK, exampleWorld, pageRequest, examplePage1,
        examplePage2]) 2⟩

/-- C3 on a request with 1 deletion, 2 replacements and no merges: the call
carries 1, 2 and 0 entries. -/
theorem UpsertRecordSets_forwards_buckets_witness :
    ∃ (wire : dns.UpsertRecordSetsRequest) (res : Except GoError Operation),
      (UpsertRecordSets (exampleClient "f1")
          { DnsZoneID := "z1"
            Deletions := [{ Name := "old", Type_ := "A", TTL := 300, Data := ["1.2.3.4"] }]
            Replacements := [{ Name := "www", Type_ := "A", TTL := 60, Data := ["2.2.2.2", "1.1.1.1"] },
                             { Name := "txt", Type_ := "TXT", TTL := 60, Data := ["v"] }]
            Merges := [] } exampleWorld).2.trace
        = exampleWorld.trace ++ [Call.UpsertRecordSets wire res] ∧
      wire.DnsZoneId = "z1" ∧
      wire.Deletions.length = 1 ∧ wire.Replacements.length = 2 ∧ wire.Merges.length = 0 :=
  match UpsertRecordSets_forwards_buckets (exampleClient "f1")
      { DnsZoneID := "z1"
        Deletions := [{ Name := "old", Type_ := "A", TTL := 300, Data := ["1.2.3.4"] }]
        Replacements := [{ Name := "www", Type_ := "A", TTL := 60, Data := ["2.2.2.2", "1.1.1.1"] },
                         { Name := "txt", Type_ := "TXT", TTL := 60, Data := ["v"] }]
        Merges := [] } exampleWorld with
  | ⟨wire, res, h1, _, h3, h4, h5, h6, _⟩ => ⟨wire, res, h1, h3, h4, h5, h6⟩

/-- C10: the two record-set mappings undo each other. Mapping a bucket of a
request to the wire as `UpsertRecordSets` does and the result back as
`ListRecordSets` does gives the bucket again; mapping a provider response as
`ListRecordSets` does and the result to the wire as `UpsertRecordSets` does, in
any bucket, gives the provider's record sets again. So the record sets
`ListRecordSets` returned, passed on as `Replacements`, reach the provider
exactly as the provider sent them. -/
theorem record_mappings_inverse :
    (∀ (req : UpsertRequest) (token : String),
      ListRecordSets.recordSets
          { RecordSets := (UpsertRecordSets.upsertReq req).Deletions, NextPageToken := token }
        = req.Deletions ∧
      ListRecordSets.recordSets
          { RecordSets := (UpsertRecordSets.upsertReq req).Replacements, NextPageToken := token }
        = req.Replacements ∧
      ListRecordSets.recordSets
          { RecordSets := (UpsertRecordSets.upsertReq req).Merges, NextPageToken := token }
        = req.Merges) ∧
    (∀ (resp : dns.ListDnsZoneRecordSetsResponse) (zoneID : String),
      (UpsertRecordSets.upsertReq
          { DnsZoneID := zoneID
            Deletions := ListRecordSets.recordSets resp
            Replacements := ListRecordSets.recordSets resp
            Merges := ListRecordSets.recordSets resp })
        = { DnsZoneId := zoneID
            Deletions := resp.RecordSets
            Replacements := resp.RecordSets
            Merges := resp.RecordSets }) ∧
    (∀ (σ : Type) (c : YandexClient σ) (zoneID : String) (w : World σ)
      (resp : dns.ListDnsZoneRecordSetsResponse),
      (c.sdk.DnsZone_ListRecordSets
          { DnsZoneId := zoneID, PageSize := 0, PageToken := "", Filter := "" } w.state).1
        = .ok resp →
      ∃ res : Except GoError Operation,
        (UpsertRecordSets c
            { DnsZoneID := zoneID
              Deletions := []
              Replacements := (ListRecordSets c zoneID w).1.1
              Merges := [] }
            (ListRecordSets c zoneID w).2).2.trace
          = (ListRecordSets c zoneID w).2.trace ++
              [Call.UpsertRecordSets
                { DnsZoneId := zoneID
                  Deletions := []
                  Replacements := resp.RecordSets
                  Merges := [] } res]) := by
  refine ⟨?_, ?_, ?_⟩
  · intro req token
    simp only [recordSets_eq, upsertReq_eq]
    exact ⟨map_map_cancel _ _ (fun _ => rfl) _, map_map_cancel _ _ (fun _ => rfl) _,
      map_map_cancel _ _ (fun _ => rfl) _⟩
  · intro resp zoneID
    simp only [recordSets_eq, upsertReq_eq]
    rw [map_map_cancel _ _ (fun _ => rfl) resp.RecordSets]
  · intro σ c zoneID w resp hresp
    rw [UpsertRecordSets_eq, upsertReq_eq, ListRecordSets_eq, hresp]
    simp only [List.map_nil]
    rw [map_map_cancel _ _ (fun _ => rfl) resp.RecordSets]
    exact ⟨_, rfl⟩

/-- C10 on zone `z1`: what `ListRecordSets` returned, sent back as
`Replacements`, reaches the provider as the provider's own two record sets. -/
theorem record_mappings_inverse_witness :
    ∃ res : Except GoError Operation,
      (UpsertRecordSets (exampleClient "f1")
          { DnsZoneID := "z1"
            Deletions := []
            Replacements := (ListRecordSets (exampleClient "f1") "z1" exampleWorld).1.1
            Merges := [] }
          (ListRecordSets (exampleClient "f1") "z1" exampleWorld).2).2.trace
        = (ListRecordSets (exampleClient "f1") "z1" exampleWorld).2.trace ++
            [Call.UpsertRecordSets
              { DnsZoneId := "z1"
                Deletions := []
                Replacements :=
                  [exampleWww,
                   { Name := "txt", Type_ := "TXT", Ttl := 60, Data := ["b", "a", "b"] }]
                Merges := [] } res] :=
  record_mappings_inverse.2.2 Nat (exampleClient "f1") "z1" exampleWorld
    { RecordSets :=
        [exampleWww, { Name := "txt", Type_ := "TXT", Ttl := 60, Data := ["b", "a", "b"] }]
      NextPageToken := "" } rfl

end client
